import Mathlib

/-!
Verification of the Community-Mangrove-Watch python backend
(`src/lib/backend/python_backend/`) against its natural-language
specification.  Each Python function the claims touch is embedded as an
executable Lean definition translated from the source; machine floats are
modelled as rationals, datetimes as integer unix seconds, MongoDB
collections as lists of documents, and HTTP errors as an explicit error
type.
-/

/-! ## JSON-ish claim values (payload entries of a JWT, `services/auth_service.py`) -/

/-- Value stored under a key of a JWT claims dictionary: the code stores
strings (sub, email) and the integer exp timestamp PyJWT serialises. -/
inductive JValue where
  | s (str : String)
  | n (int : Int)
deriving DecidableEq

/-- A Python dict of JWT claims, as an insertion-ordered association list. -/
abbrev Claims := List (String × JValue)

/-- Dict lookup: first binding of the key wins (keys are unique in a dict). -/
def lookupClaim (d : Claims) (k : String) : Option JValue :=
  match d with
  | [] => none
  | (k2, v) :: rest => if k2 = k then some v else lookupClaim rest k

/-- Semantics of python `dict.update({k: v})`: replace the binding in place
if the key exists, append it otherwise. -/
def setClaim (d : Claims) (k : String) (v : JValue) : Claims :=
  match d with
  | [] => [(k, v)]
  | (k2, v2) :: rest => if k2 = k then (k2, v) :: rest else (k2, v2) :: setClaim rest k v

theorem lookupClaim_setClaim_same (d : Claims) (k : String) (v : JValue) :
    lookupClaim (setClaim d k v) k = some v := by
  induction d with
  | nil => simp [setClaim, lookupClaim]
  | cons hd tl ih =>
    obtain ⟨k2, v2⟩ := hd
    by_cases h : k2 = k
    · simp [setClaim, lookupClaim, h]
    · simp [setClaim, lookupClaim, h, ih]

theorem lookupClaim_setClaim_ne (d : Claims) (k k2 : String) (v : JValue)
    (h : k2 ≠ k) : lookupClaim (setClaim d k v) k2 = lookupClaim d k2 := by
  induction d with
  | nil => simp [setClaim, lookupClaim, Ne.symm h]
  | cons hd tl ih =>
    obtain ⟨k3, v3⟩ := hd
    by_cases h3 : k3 = k
    · subst h3
      simp [setClaim, lookupClaim, Ne.symm h]
    · simp [setClaim, lookupClaim, h3, ih]

/-! ## HTTP errors (fastapi.HTTPException) -/

/-- An HTTPException as raised by the handlers: status code plus detail. -/
structure HttpError where
  status : Nat
  detail : String
deriving DecidableEq

/-! ## AuthService JWT configuration and tokens (`services/auth_service.py` 12-49)

`create_access_token` copies the claims, sets exp to now plus the
configured expiry, and signs with the configured secret and algorithm
(HS256 by default).  `decode_token` verifies with the same secret and the
one-element algorithms list and raises HTTP 401 "Invalid token" on any
PyJWTError (bad signature, wrong algorithm, or an expired exp claim).
The HMAC signature is modelled by recording on the token which key and
algorithm produced it; verification compares them, which is the
correctness contract of the JWT library. -/

structure JwtConfig where
  secret_key : String
  algorithm : String
  access_token_expire_minutes : Int

/-- Environment defaults of AuthService.__init__ (auth_service.py 15-18). -/
def defaultJwtConfig : JwtConfig :=
  { secret_key := "your-secret-key-change-in-production"
    algorithm := "HS256"
    access_token_expire_minutes := 1440 }

structure JwtToken where
  payload : Claims
  signing_key : String
  signing_alg : String
deriving DecidableEq

/-- AuthService.create_access_token (auth_service.py 34-41): timedelta
minutes become seconds in the serialised exp claim. -/
def create_access_token (cfg : JwtConfig) (data : Claims) (now : Int) : JwtToken :=
  let expire : Int := now + cfg.access_token_expire_minutes * 60
  { payload := setClaim data "exp" (JValue.n expire)
    signing_key := cfg.secret_key
    signing_alg := cfg.algorithm }

/-- AuthService.decode_token (auth_service.py 43-49): jwt.decode verifies
the signature against the secret and the algorithms list, then checks exp
(valid only strictly before expiry); any failure is a PyJWTError and is
surfaced as HTTP 401 "Invalid token". -/
def decode_token (cfg : JwtConfig) (token : JwtToken) (now : Int) :
    Except HttpError Claims :=
  if token.signing_key = cfg.secret_key ∧ token.signing_alg = cfg.algorithm then
    match lookupClaim token.payload "exp" with
    | some (JValue.n e) =>
        if e ≤ now then Except.error ⟨401, "Invalid token"⟩ else Except.ok token.payload
    | some (JValue.s _) => Except.error ⟨401, "Invalid token"⟩
    | none => Except.ok token.payload
  else
    Except.error ⟨401, "Invalid token"⟩

/-- C1: a token made by create_access_token decodes back, before its expiry,
to the original claims plus an exp claim equal to issuance time plus the
configured expiry (in seconds: minutes times 60), and decode_token raises
HTTP 401 "Invalid token" on every token not signed with the configured
secret and algorithm. -/
theorem jwt_encode_decode_round_trip (cfg : JwtConfig) (data : Claims) (t0 t1 : Int)
    (h : t1 < t0 + cfg.access_token_expire_minutes * 60) :
    decode_token cfg (create_access_token cfg data t0) t1
      = Except.ok (setClaim data "exp" (JValue.n (t0 + cfg.access_token_expire_minutes * 60)))
    ∧ lookupClaim (create_access_token cfg data t0).payload "exp"
      = some (JValue.n (t0 + cfg.access_token_expire_minutes * 60))
    ∧ (∀ k, k ≠ "exp" →
        lookupClaim (create_access_token cfg data t0).payload k = lookupClaim data k)
    ∧ (∀ tok : JwtToken,
        tok.signing_key ≠ cfg.secret_key ∨ tok.signing_alg ≠ cfg.algorithm →
        decode_token cfg tok t1 = Except.error ⟨401, "Invalid token"⟩) := by
  refine ⟨?_, ?_, ?_, ?_⟩
  · have hgt : ¬ (t0 + cfg.access_token_expire_minutes * 60 ≤ t1) := by omega
    simp [decode_token, create_access_token, lookupClaim_setClaim_same, hgt]
  · simpa [create_access_token] using
      lookupClaim_setClaim_same data "exp" (JValue.n (t0 + cfg.access_token_expire_minutes * 60))
  · intro k hk
    simpa [create_access_token] using
      lookupClaim_setClaim_ne data "exp" k (JValue.n (t0 + cfg.access_token_expire_minutes * 60)) hk
  · intro tok htok
    have : ¬ (tok.signing_key = cfg.secret_key ∧ tok.signing_alg = cfg.algorithm) := by
      rcases htok with h1 | h2
      · exact fun hc => h1 hc.1
      · exact fun hc => h2 hc.2
    simp [decode_token, this]

/-- Closed instance of the C1 theorem: the default configuration, a one-claim
payload issued at time 0 and decoded at time 100, well before expiry. -/
theorem jwt_encode_decode_round_trip_witness :
    decode_token defaultJwtConfig
        (create_access_token defaultJwtConfig [("sub", JValue.s "u1")] 0) 100
      = Except.ok [("sub", JValue.s "u1"), ("exp", JValue.n 86400)] := by
  have h := jwt_encode_decode_round_trip defaultJwtConfig [("sub", JValue.s "u1")] 0 100 (by decide)
  simpa [setClaim, defaultJwtConfig] using h.1

/-! ## User store (`models/user.py`, `database/mongodb.py`)

The MongoDB users collection is a list of user documents (insertion
order); `_id` is the primary key and `find_one` returns the first match. -/

/-- UserRole enum (models/user.py 6-11). -/
inductive UserRole where
  | citizen
  | ngo
  | government
  | researcher
  | admin
deriving DecidableEq

/-- UserCreate request model (models/user.py 13-20). -/
structure UserCreate where
  name : String
  email : String
  password : String
  role : UserRole
  organization : Option String
  phone : Option String
  location : Option String
deriving DecidableEq

/-- A document of the users collection as Database.create_user writes it
(mongodb.py 56-71). -/
structure UserDoc where
  id : String
  name : String
  email : String
  password : String
  role : UserRole
  organization : Option String
  phone : Option String
  location : Option String
  points : Int
  badges : List String
  is_verified : Bool
  is_admin : Bool
  created_at : Int
  updated_at : Int
deriving DecidableEq

/-- Database.create_user (mongodb.py 51-74): the generated uuid and the
current time are passed in as the two effectful inputs. -/
def create_user (data : UserCreate) (hashed_password : String)
    (user_id : String) (now : Int) : UserDoc :=
  { id := user_id
    name := data.name
    email := data.email
    password := hashed_password
    role := data.role
    organization := data.organization
    phone := data.phone
    location := data.location
    points := 0
    badges := []
    is_verified := false
    is_admin := decide (data.role = UserRole.admin)
    created_at := now
    updated_at := now }

/-- Database.get_user_by_email (mongodb.py 76-81): find_one on the email
field returns the first stored document with that email. -/
def get_user_by_email (store : List UserDoc) (email : String) : Option UserDoc :=
  store.find? (fun u => u.email == email)

/-- AuthService.register_user (auth_service.py 51-63): reject with HTTP 400
when the email is taken, otherwise hash the password and insert one new
user document.  The bcrypt hash is abstracted as the function hashPassword. -/
def register_user (store : List UserDoc) (data : UserCreate)
    (hashPassword : String → String) (user_id : String) (now : Int) :
    Except HttpError (List UserDoc × UserDoc) :=
  match get_user_by_email store data.email with
  | some _ => Except.error ⟨400, "Email already registered"⟩
  | none =>
      let user := create_user data (hashPassword data.password) user_id now
      Except.ok (store ++ [user], user)

/-- No two documents of the store share an email. -/
def uniqueEmails (store : List UserDoc) : Prop :=
  store.Pairwise (fun a b => a.email ≠ b.email)

/-- C2: register_user raises the HTTP 400 "Email already registered" error
exactly when a stored user already has the requested email; otherwise the
store grows by exactly the one new user, whose email is the requested one
and whose password is the hash of the given password, and email uniqueness
of the store is preserved. -/
theorem register_user_unique_email (store : List UserDoc) (data : UserCreate)
    (hashPassword : String → String) (user_id : String) (now : Int) :
    (register_user store data hashPassword user_id now
        = Except.error ⟨400, "Email already registered"⟩
      ↔ ∃ u ∈ store, u.email = data.email)
    ∧ (∀ store2 u, register_user store data hashPassword user_id now = Except.ok (store2, u) →
        store2 = store ++ [u]
        ∧ u.email = data.email
        ∧ u.password = hashPassword data.password
        ∧ (uniqueEmails store → uniqueEmails store2)) := by
  rcases hfind : get_user_by_email store data.email with _ | u0
  · have hnone : ∀ u ∈ store, u.email ≠ data.email := by
      intro u hu
      have := List.find?_eq_none.mp hfind u hu
      simpa using this
    constructor
    · constructor
      · intro habs
        rw [register_user, hfind] at habs
        exact absurd habs (by simp)
      · rintro ⟨u, hu, he⟩
        exact absurd he (hnone u hu)
    · intro store2 u hok
      rw [register_user, hfind] at hok
      simp only [Except.ok.injEq, Prod.mk.injEq] at hok
      obtain ⟨hs2, hu⟩ := hok
      subst hu
      refine ⟨hs2.symm, rfl, rfl, ?_⟩
      intro huniq
      rw [← hs2, uniqueEmails, List.pairwise_append]
      refine ⟨huniq, by simp, ?_⟩
      intro a ha b hb
      simp only [List.mem_singleton] at hb
      subst hb
      exact hnone a ha
  · have hu0 : u0 ∈ store ∧ u0.email = data.email := by
      refine ⟨List.mem_of_find?_eq_some hfind, ?_⟩
      have := List.find?_some hfind
      simpa using this
    constructor
    · constructor
      · intro _
        exact ⟨u0, hu0.1, hu0.2⟩
      · intro _
        rw [register_user, hfind]
    · intro store2 u hok
      rw [register_user, hfind] at hok
      exact absurd hok (by simp)

/-- C10: every freshly created user document starts with points 0, no
badges, is_verified false, and is_admin true exactly when the requested
role is admin; and since POST /auth/register (main.py 98-107) takes no
authentication dependency, a registration with role admin on a store
without that email succeeds and stores an admin-flagged document. -/
theorem create_user_initial_fields (data : UserCreate) (hashed : String)
    (user_id : String) (now : Int) (store : List UserDoc)
    (hashPassword : String → String) :
    (create_user data hashed user_id now).points = 0
    ∧ (create_user data hashed user_id now).badges = []
    ∧ (create_user data hashed user_id now).is_verified = false
    ∧ (create_user data hashed user_id now).is_admin = decide (data.role = UserRole.admin)
    ∧ (get_user_by_email store data.email = none →
        register_user store data hashPassword user_id now
          = Except.ok (store ++ [create_user data (hashPassword data.password) user_id now],
              create_user data (hashPassword data.password) user_id now))
    ∧ (data.role = UserRole.admin → (create_user data hashed user_id now).is_admin = true) := by
  refine ⟨rfl, rfl, rfl, rfl, ?_, ?_⟩
  · intro hnone
    rw [register_user, hnone]
  · intro hrole
    simp [create_user, hrole]

/-! ## Google Earth Engine wrapper, mock path (`services/gee_service.py`)

When the service is not initialized every query method returns mock data.
The two effectful inputs the mock code reads are the wall clock
(datetime.now().isoformat(), modelled as an opaque string) and the numpy
RNG (np.random.normal draws, modelled as an explicit list of draws). -/

structure AreaStats where
  ndvi_mean : ℚ
  ndvi_std : ℚ
  water_percentage : ℚ
deriving DecidableEq

structure SatelliteData where
  latitude : ℚ
  longitude : ℚ
  ndvi : ℚ
  ndwi : ℚ
  savi : ℚ
  area_stats : AreaStats
  data_date : String
  cloud_cover : String
  data_source : String
deriving DecidableEq

/-- GoogleEarthEngineService._get_mock_satellite_data (gee_service.py
197-217): pure in the coordinates except for the data_date timestamp. -/
def get_mock_satellite_data (latitude longitude : ℚ) (nowIso : String) : SatelliteData :=
  let base_ndvi : ℚ := 3/10 + (|latitude| / 90) * (4/10)
  { latitude := latitude
    longitude := longitude
    ndvi := base_ndvi
    ndwi := 1/5
    savi := base_ndvi * (8/10)
    area_stats := { ndvi_mean := base_ndvi, ndvi_std := 3/20, water_percentage := 25 }
    data_date := nowIso
    cloud_cover := "low"
    data_source := "Mock" }

structure ExtentData where
  current_extent_hectares : ℚ
  historical_extent_hectares : ℚ
  change_hectares : ℚ
  change_percentage : ℚ
deriving DecidableEq

/-- GoogleEarthEngineService._get_mock_extent_data (gee_service.py 252-262). -/
def get_mock_extent_data (latitude longitude : ℚ) : ExtentData :=
  let base_area : ℚ := |latitude| * 10
  { current_extent_hectares := base_area
    historical_extent_hectares := base_area * (12/10)
    change_hectares := base_area * (-2/10)
    change_percentage := -167/10 }

structure TrendPoint where
  year : Int
  ndvi_mean : ℚ
  health_score : ℚ
deriving DecidableEq

structure TrendsData where
  trends : List TrendPoint
  latitude : ℚ
  longitude : ℚ
  radius_km : ℚ
deriving DecidableEq

/-- The fixed years of the trends analysis (gee_service.py 312). -/
def trendYears : List Int := [1996, 2000, 2005, 2010, 2015, 2020]

/-- GoogleEarthEngineService._get_mock_trends_data (gee_service.py 310-331):
health of year index i is 75 - 2*i plus an unseeded np.random.normal(0, 5)
draw, clamped to [0, 100]; the draws are passed in as the noise list. -/
def get_mock_trends_data (latitude longitude : ℚ) (noise : List ℚ) : TrendsData :=
  let base_health : ℚ := 75
  let pts := (List.range trendYears.length).map (fun (i : ℕ) =>
    let h0 := base_health - 2 * (↑i : ℚ) + noise.getD i 0
    let h := max 0 (min 100 h0)
    ({ year := trendYears.getD i 0, ndvi_mean := h / 100, health_score := h } : TrendPoint))
  { trends := pts, latitude := latitude, longitude := longitude, radius_km := 10 }

/-- C5 counterexample: with the same coordinates (10, 20) but different
RNG draws - which is what two successive calls to the unseeded
np.random.normal produce - get_mangrove_trends returns different mock
data, so the wrapper is not deterministic in the coordinates. -/
theorem mock_trends_nondeterministic :
    get_mock_trends_data 10 20 [0, 0, 0, 0, 0, 0]
      ≠ get_mock_trends_data 10 20 [1, 0, 0, 0, 0, 0] := by
  intro h
  have h1 := congrArg (fun t => t.trends.map TrendPoint.health_score) h
  simp [get_mock_trends_data, trendYears] at h1
  have h2 := h1 0 (by norm_num)
  norm_num [max_def, min_def] at h2

/-- GoogleEarthEngineService.get_satellite_data (gee_service.py 121-127):
with the service uninitialized the mock data is returned, never the real
Earth Engine query (carried opaquely as `real`). -/
def get_satellite_data (initialized : Bool) (real : SatelliteData)
    (latitude longitude : ℚ) (nowIso : String) : SatelliteData :=
  if initialized then real else get_mock_satellite_data latitude longitude nowIso

/-- GoogleEarthEngineService.get_mangrove_trends (gee_service.py 264-267,
mock branch). -/
def get_mangrove_trends (initialized : Bool) (real : TrendsData)
    (latitude longitude : ℚ) (noise : List ℚ) : TrendsData :=
  if initialized then real else get_mock_trends_data latitude longitude noise

/-- C5 (amended): the mock satellite data is a function of the coordinates
alone on every field except the data_date wall-clock stamp, and the mock
extent data reads no hidden input at all; the mock trends data is NOT
deterministic: different draws of its unseeded Gaussian noise give
different results at the same coordinates. -/
theorem mock_query_determinism (lat lng : ℚ) (t1 t2 : String)
    (real : SatelliteData) (realTrends : TrendsData) (noise : List ℚ) :
    get_satellite_data false real lat lng t1 = get_mock_satellite_data lat lng t1
    ∧ get_mangrove_trends false realTrends lat lng noise = get_mock_trends_data lat lng noise
    ∧ ({ get_mock_satellite_data lat lng t1 with data_date := "" }
      = { get_mock_satellite_data lat lng t2 with data_date := "" })
    ∧ (get_mock_satellite_data lat lng t1).ndvi = (get_mock_satellite_data lat lng t2).ndvi
    ∧ (get_mock_satellite_data lat lng t1).area_stats
      = (get_mock_satellite_data lat lng t2).area_stats
    ∧ get_mock_extent_data lat lng = get_mock_extent_data lat lng
    ∧ ∃ noise1 noise2 : List ℚ,
        get_mock_trends_data lat lng noise1 ≠ get_mock_trends_data lat lng noise2 := by
  refine ⟨rfl, rfl, rfl, rfl, rfl, rfl, [0, 0, 0, 0, 0, 0], [1, 0, 0, 0, 0, 0], ?_⟩
  intro h
  have h1 := congrArg (fun t => t.trends.map TrendPoint.health_score) h
  simp [get_mock_trends_data, trendYears] at h1
  have h2 := h1 0 (by norm_num)
  norm_num [max_def, min_def] at h2

/-! ## ML model service (`services/ml_service.py`)

predict_mangrove_coverage reads ndvi/ndwi/savi from the satellite data,
produces a raw prediction from whichever model is loaded (neural network,
random forest, or the rule-based fallback), clamps it into [0, 1] and
derives a health score.  The trained models are opaque, so their raw
output is carried by the model state. -/

/-- Which model branch predict_mangrove_coverage takes (ml_service.py
142-169), together with the raw model output for the trained branches. -/
inductive MlModelState where
  | neural (raw : ℚ)
  | forest (raw : ℚ)
  | ruleBased
deriving DecidableEq

/-- MLModelService._rule_based_prediction (ml_service.py 197-221): three
if/elif chains add range contributions to the score, capped at 1. -/
def rule_based_prediction (ndvi ndwi savi : ℚ) : ℚ :=
  let score : ℚ := 0
  let score := if 3/10 ≤ ndvi ∧ ndvi ≤ 8/10 then score + 4/10
    else if 2/10 ≤ ndvi ∧ ndvi < 3/10 then score + 2/10
    else if ndvi > 8/10 then score + 1/10
    else score
  let score := if -3/10 ≤ ndwi ∧ ndwi ≤ 3/10 then score + 3/10
    else if -5/10 ≤ ndwi ∧ ndwi < -3/10 then score + 1/10
    else score
  let score := if 2/10 ≤ savi ∧ savi ≤ 6/10 then score + 3/10
    else if 1/10 ≤ savi ∧ savi < 2/10 then score + 1/10
    else score
  min 1 score

/-- MLModelService._calculate_health_score (ml_service.py 223-241). -/
def calculate_health_score (ndvi coverage : ℚ) : ℚ :=
  if coverage < 1/10 then 0
  else
    let health : ℚ :=
      if ndvi ≥ 6/10 then 90
      else if ndvi ≥ 4/10 then 70
      else if ndvi ≥ 2/10 then 50
      else 20
    min 100 (health * coverage)

structure CoveragePrediction where
  coverage : ℚ
  confidence : ℚ
  ndvi : ℚ
  health_score : ℚ
  model_type : String
deriving DecidableEq

/-- MLModelService.predict_mangrove_coverage (ml_service.py 135-183):
model branch, clamp to [0, 1], then the health score of the clamped
coverage. -/
def predict_mangrove_coverage (model : MlModelState) (ndvi ndwi savi : ℚ) :
    CoveragePrediction :=
  let prediction :=
    match model with
    | MlModelState.neural raw => raw
    | MlModelState.forest raw => raw
    | MlModelState.ruleBased => rule_based_prediction ndvi ndwi savi
  let confidence : ℚ :=
    match model with
    | MlModelState.neural _ => 8/10
    | MlModelState.forest _ => 3/4
    | MlModelState.ruleBased => 3/5
  let prediction := max 0 (min 1 prediction)
  { coverage := prediction
    confidence := confidence
    ndvi := ndvi
    health_score := calculate_health_score ndvi prediction
    model_type :=
      match model with
      | MlModelState.neural _ => "neural_network"
      | MlModelState.forest _ => "random_forest"
      | MlModelState.ruleBased => "rule_based" }

/-- Contribution of the NDVI range rules, as the specification words them
(ml_service.py 201-207). -/
def ndviContribution (ndvi : ℚ) : ℚ :=
  if 3/10 ≤ ndvi ∧ ndvi ≤ 8/10 then 4/10
  else if 2/10 ≤ ndvi ∧ ndvi < 3/10 then 2/10
  else if ndvi > 8/10 then 1/10
  else 0

/-- Contribution of the NDWI range rules (ml_service.py 209-213). -/
def ndwiContribution (ndwi : ℚ) : ℚ :=
  if -3/10 ≤ ndwi ∧ ndwi ≤ 3/10 then 3/10
  else if -5/10 ≤ ndwi ∧ ndwi < -3/10 then 1/10
  else 0

/-- Contribution of the SAVI range rules (ml_service.py 215-219). -/
def saviContribution (savi : ℚ) : ℚ :=
  if 2/10 ≤ savi ∧ savi ≤ 6/10 then 3/10
  else if 1/10 ≤ savi ∧ savi < 2/10 then 1/10
  else 0

theorem rule_based_prediction_eq_contributions (ndvi ndwi savi : ℚ) :
    rule_based_prediction ndvi ndwi savi
      = min 1 (ndviContribution ndvi + ndwiContribution ndwi + saviContribution savi) := by
  unfold rule_based_prediction ndviContribution ndwiContribution saviContribution
  split_ifs <;> ring_nf

theorem contributions_nonneg (ndvi ndwi savi : ℚ) :
    0 ≤ ndviContribution ndvi ∧ 0 ≤ ndwiContribution ndwi ∧ 0 ≤ saviContribution savi := by
  unfold ndviContribution ndwiContribution saviContribution
  refine ⟨?_, ?_, ?_⟩ <;> split_ifs <;> norm_num

theorem calculate_health_score_nonneg (ndvi c : ℚ) (hc : 0 ≤ c) :
    0 ≤ calculate_health_score ndvi c := by
  by_cases h : c < 1/10
  · unfold calculate_health_score
    rw [if_pos h]
  · unfold calculate_health_score
    rw [if_neg h]
    show 0 ≤ min 100
      ((if ndvi ≥ 6/10 then (90:ℚ) else if ndvi ≥ 4/10 then 70
        else if ndvi ≥ 2/10 then 50 else 20) * c)
    refine le_min (by norm_num) (mul_nonneg ?_ hc)
    split_ifs <;> norm_num

theorem calculate_health_score_le_hundred (ndvi c : ℚ) :
    calculate_health_score ndvi c ≤ 100 := by
  by_cases h : c < 1/10
  · unfold calculate_health_score
    rw [if_pos h]
    norm_num
  · unfold calculate_health_score
    rw [if_neg h]
    show min 100
      ((if ndvi ≥ 6/10 then (90:ℚ) else if ndvi ≥ 4/10 then 70
        else if ndvi ≥ 2/10 then 50 else 20) * c) ≤ 100
    exact min_le_left 100 _

/-- C6: every prediction has coverage in [0, 1] and health score in
[0, 100]; the health score is 0 whenever coverage is below 0.1; and on the
rule-based fallback the coverage is exactly the sum of the NDVI, NDWI and
SAVI range contributions capped at 1. -/
theorem predict_mangrove_coverage_bounds (model : MlModelState) (ndvi ndwi savi : ℚ) :
    0 ≤ (predict_mangrove_coverage model ndvi ndwi savi).coverage
    ∧ (predict_mangrove_coverage model ndvi ndwi savi).coverage ≤ 1
    ∧ 0 ≤ (predict_mangrove_coverage model ndvi ndwi savi).health_score
    ∧ (predict_mangrove_coverage model ndvi ndwi savi).health_score ≤ 100
    ∧ ((predict_mangrove_coverage model ndvi ndwi savi).coverage < 1/10 →
        (predict_mangrove_coverage model ndvi ndwi savi).health_score = 0)
    ∧ (model = MlModelState.ruleBased →
        (predict_mangrove_coverage model ndvi ndwi savi).coverage
          = min 1 (ndviContribution ndvi + ndwiContribution ndwi + saviContribution savi)) := by
  have hcov0 : 0 ≤ (predict_mangrove_coverage model ndvi ndwi savi).coverage :=
    le_max_left 0 _
  have hcov1 : (predict_mangrove_coverage model ndvi ndwi savi).coverage ≤ 1 :=
    max_le (by norm_num) (min_le_left 1 _)
  have hhealth : (predict_mangrove_coverage model ndvi ndwi savi).health_score
      = calculate_health_score ndvi (predict_mangrove_coverage model ndvi ndwi savi).coverage :=
    rfl
  refine ⟨hcov0, hcov1, ?_, ?_, ?_, ?_⟩
  · rw [hhealth]
    exact calculate_health_score_nonneg ndvi _ hcov0
  · rw [hhealth]
    exact calculate_health_score_le_hundred ndvi _
  · intro hlt
    rw [hhealth]
    unfold calculate_health_score
    rw [if_pos hlt]
  · intro hm
    subst hm
    have hsum : 0 ≤ ndviContribution ndvi + ndwiContribution ndwi + saviContribution savi := by
      obtain ⟨a, b, c2⟩ := contributions_nonneg ndvi ndwi savi
      linarith
    show max 0 (min 1 (rule_based_prediction ndvi ndwi savi)) = _
    rw [rule_based_prediction_eq_contributions, ← min_assoc, min_self]
    exact max_eq_right (le_min (by norm_num) hsum)

/-! ## Python attribute tables

Python resolves `obj.attr` against the attributes the class defines;
a name that is not among them raises AttributeError.  These tables list
the attributes each relevant class actually defines, read off the source. -/

/-- Attributes of the Database class (database/mongodb.py): the five
fields assigned in __init__ plus its methods.  There is no is_connected
and no incidents_collection. -/
def databaseAttrs : List String :=
  ["client", "db", "users", "incidents", "analytics",
   "connect", "disconnect", "create_indexes",
   "create_user", "get_user_by_email", "get_user_by_id", "_doc_to_user",
   "update_user_points", "create_incident", "get_incidents",
   "get_incident_by_id", "_doc_to_incident", "verify_incident",
   "get_leaderboard", "get_user_stats", "get_dashboard_analytics"]

/-- Attributes of MLModelService (services/ml_service.py): the six fields
assigned in __init__ plus its methods.  There is no
predict_incident_severity. -/
def mlServiceAttrs : List String :=
  ["nn_model", "rf_model", "onnx_session", "model_loaded", "onnx_loaded",
   "models_path", "load_model", "create_and_train_models",
   "_build_neural_network", "_generate_training_data",
   "create_basic_fallback_models", "predict_mangrove_coverage",
   "_rule_based_prediction", "_calculate_health_score", "preprocess_image",
   "predict_mangrove_from_image", "_fallback_image_prediction",
   "retrain_model"]

/-- Attributes of a plain python dict (what `request.attr` can resolve to
when the request body is typed Dict[str, Any]): only the dict methods,
never the dict keys. -/
def dictAttrs : List String :=
  ["clear", "copy", "fromkeys", "get", "items", "keys", "pop", "popitem",
   "setdefault", "update", "values"]

/-! ## POST /predict-mangrove (main.py 243-270)

The handler receives `request: Dict[str, Any]` and immediately evaluates
`request.latitude` - attribute access on a plain dict, which raises
AttributeError; the blanket `except Exception` turns this into
HTTP 500 "Prediction failed: ...".  The rest of the handler (satellite
fetch plus ML prediction into a PredictionResponse) is therefore dead
code; it is carried as the opaque continuation `pipeline`. -/

/-- PredictionResponse model (models/prediction.py 12-20), the fields the
handler sets. -/
structure PredictionResponse where
  latitude : ℚ
  longitude : ℚ
  predicted_coverage : ℚ
  confidence : ℚ
  ndvi_value : ℚ
  prediction_date : Int
deriving DecidableEq

/-- The POST /predict-mangrove handler.  The body is the parsed JSON dict;
`pipeline` stands for the never-reached remainder of the handler. -/
def predict_mangrove_route (body : List (String × ℚ))
    (pipeline : List (String × ℚ) → PredictionResponse) :
    Except HttpError PredictionResponse :=
  if dictAttrs.contains "latitude" then
    Except.ok (pipeline body)
  else
    Except.error ⟨500, "Prediction failed: 'dict' object has no attribute 'latitude'"⟩

/-- C4 (code bug): a plain dict has no latitude attribute, so every
request to POST /predict-mangrove fails with HTTP 500 - whatever
coordinates the body carries and whatever the rest of the handler would
compute - instead of returning the PredictionResponse the claim
describes. -/
theorem predict_mangrove_route_always_500 (body : List (String × ℚ))
    (pipeline : List (String × ℚ) → PredictionResponse) :
    dictAttrs.contains "latitude" = false
    ∧ predict_mangrove_route body pipeline
      = Except.error ⟨500, "Prediction failed: 'dict' object has no attribute 'latitude'"⟩ := by
  refine ⟨by decide, ?_⟩
  unfold predict_mangrove_route
  rw [if_neg (by decide)]

/-! ## POST /incidents and GET /incidents (main.py 139-200)

Both handlers were written against a database object with is_connected()
and incidents_collection, which the Database class of mongodb.py does not
define.  POST /incidents builds the incident dict, then (with a loaded
model) calls ml_service.predict_incident_severity - also undefined - or
otherwise db.is_connected(); the AttributeError is caught and re-raised
as HTTP 500.  GET /incidents hits the same AttributeError and its
`except` returns the empty list. -/

/-- The parsed JSON body of POST /incidents: every field the handler reads
with `incident_data.get(key, default)` is optional.  The location dict is
kept opaque as a key/number list. -/
structure IncidentRequestBody where
  userId : Option String
  type : Option String
  description : Option String
  location : Option (List (String × ℚ))
  severity : Option String
  status : Option String
  timestamp : Option String
  images : Option (List String)
  title : Option String
  reporterName : Option String
deriving DecidableEq

/-- The incident dict the handler builds (main.py 150-162). -/
structure StoredIncident where
  id : String
  userId : String
  type : String
  description : String
  location : List (String × ℚ)
  severity : String
  status : String
  timestamp : String
  images : List String
  title : String
  reporterName : String
deriving DecidableEq

/-- The dict construction of main.py 150-162: generated id, defaults from
dict.get, the authenticated or anonymous user id, and now() as timestamp. -/
def build_incident (body : IncidentRequestBody) (generated_id user_id nowIso : String) :
    StoredIncident :=
  { id := generated_id
    userId := body.userId.getD user_id
    type := body.type.getD "other"
    description := body.description.getD ""
    location := body.location.getD []
    severity := body.severity.getD "medium"
    status := body.status.getD "pending"
    timestamp := body.timestamp.getD nowIso
    images := body.images.getD []
    title := body.title.getD "Untitled"
    reporterName := body.reporterName.getD "Anonymous" }

/-- The POST /incidents handler (main.py 139-177): the guard expressions
evaluate exactly the attribute accesses the python code performs, in
order; str(AttributeError) is the HTTP 500 detail. -/
def create_incident_route (model_loaded : Bool) (body : IncidentRequestBody)
    (generated_id user_id nowIso : String) :
    Except HttpError StoredIncident :=
  let incident := build_incident body generated_id user_id nowIso
  if model_loaded && !(mlServiceAttrs.contains "predict_incident_severity") then
    Except.error
      ⟨500, "'MLModelService' object has no attribute 'predict_incident_severity'"⟩
  else if !(databaseAttrs.contains "is_connected") then
    Except.error ⟨500, "'Database' object has no attribute 'is_connected'"⟩
  else if !(databaseAttrs.contains "incidents_collection") then
    Except.error ⟨500, "'Database' object has no attribute 'incidents_collection'"⟩
  else
    Except.ok incident

/-- The GET /incidents handler (main.py 179-200): same attribute accesses;
any exception is caught and the handler returns the empty list.  The last
branch is what the query would return had the attributes existed. -/
def get_incidents_route (store : List StoredIncident) (skip limit : Nat)
    (status_filter : Option String) : List StoredIncident :=
  if !(databaseAttrs.contains "is_connected") then []
  else if !(databaseAttrs.contains "incidents_collection") then []
  else
    (((match status_filter with
       | some s => store.filter (fun (i : StoredIncident) => i.status == s)
       | none => store).drop skip).take limit)

/-- C3 (code bug): the Database class has neither is_connected nor
incidents_collection, and MLModelService has no predict_incident_severity,
so POST /incidents raises HTTP 500 for every body (nothing is ever
stored) and GET /incidents returns the empty list for every skip, limit
and status filter, contradicting the claimed store-and-return and
pagination behaviour. -/
theorem incidents_routes_broken (model_loaded : Bool) (body : IncidentRequestBody)
    (generated_id user_id nowIso : String) (store : List StoredIncident)
    (skip limit : Nat) (status_filter : Option String) :
    databaseAttrs.contains "is_connected" = false
    ∧ databaseAttrs.contains "incidents_collection" = false
    ∧ mlServiceAttrs.contains "predict_incident_severity" = false
    ∧ (∃ e : HttpError,
        create_incident_route model_loaded body generated_id user_id nowIso
          = Except.error e ∧ e.status = 500)
    ∧ get_incidents_route store skip limit status_filter = [] := by
  refine ⟨by decide, by decide, by decide, ?_, ?_⟩
  · unfold create_incident_route
    cases model_loaded with
    | false =>
        refine ⟨⟨500, "'Database' object has no attribute 'is_connected'"⟩, ?_, rfl⟩
        rw [if_neg (by decide), if_pos (by decide)]
    | true =>
        refine
          ⟨⟨500, "'MLModelService' object has no attribute 'predict_incident_severity'"⟩, ?_, rfl⟩
        rw [if_pos (by decide)]
  · unfold get_incidents_route
    rw [if_pos (by decide)]

/-! ## Mangrove location heuristic (`services/gee_service.py` 333-436, 468-486) -/

/-- An inclusive coordinate bounding box (a lat_range/lng_range entry of
the hotspot table). -/
structure GeoBox where
  lat_min : ℚ
  lat_max : ℚ
  lng_min : ℚ
  lng_max : ℚ
deriving DecidableEq

/-- The 26 mangrove hotspot boxes of gee_service.py 349-427, in order:
Sundarbans, Amazon delta, Everglades, Mumbai, Gujarat, Bhitarkanika,
Pichavaram, Niger delta, Guinea-Bissau, Madagascar, Red Sea, Myanmar,
Thailand, Java, Sumatra, Kalimantan, Philippines, Papua New Guinea,
northern Australia, Queensland, Cuba, Yucatan, Mexican Pacific, Central
America, Colombia/Ecuador, Venezuela. -/
def mangrove_hotspots : List GeoBox :=
  [⟨21.5, 22.5, 88.5, 90⟩,
   ⟨-2, 0.5, -51, -48⟩,
   ⟨25, 26, -81.5, -80⟩,
   ⟨18.9, 19.3, 72.8, 73.1⟩,
   ⟨22, 23.5, 68.5, 72.5⟩,
   ⟨20.4, 20.8, 86.6, 87.1⟩,
   ⟨11.3, 11.5, 79.7, 79.9⟩,
   ⟨4, 6, 5, 8⟩,
   ⟨11, 12.5, -16.5, -14.5⟩,
   ⟨-23, -12, 43, 50.5⟩,
   ⟨21, 28, 34, 39⟩,
   ⟨15.5, 17, 94, 96.5⟩,
   ⟨7.5, 13, 98.5, 102.5⟩,
   ⟨-7.5, -5.5, 105.5, 114.5⟩,
   ⟨-5, 5, 95, 106⟩,
   ⟨-4, 2, 108, 118⟩,
   ⟨6, 18, 120, 125⟩,
   ⟨-10, -2, 140, 151⟩,
   ⟨-20, -10, 120, 150⟩,
   ⟨-28, -16, 145, 154⟩,
   ⟨20, 23.5, -85, -74⟩,
   ⟨18, 21.5, -92, -86⟩,
   ⟨15, 23, -106, -95⟩,
   ⟨8, 17, -90, -77⟩,
   ⟨-3, 8, -79, -71⟩,
   ⟨8, 11, -72, -60⟩]

/-- GoogleEarthEngineService._is_deep_inland (gee_service.py 468-486):
central Asia, central Africa, the Great Plains and central Australia. -/
def is_deep_inland (lat lng : ℚ) : Bool :=
  (decide (65 ≤ lng) && decide (lng ≤ 95) && decide (40 ≤ lat) && decide (lat ≤ 55))
  || (decide (15 ≤ lng) && decide (lng ≤ 30) && decide (-5 ≤ lat) && decide (lat ≤ 15))
  || (decide (-105 ≤ lng) && decide (lng ≤ -85) && decide (35 ≤ lat) && decide (lat ≤ 50))
  || (decide (125 ≤ lng) && decide (lng ≤ 140) && decide (-30 ≤ lat) && decide (lat ≤ -20))

/-- Membership test of the hotspot loop (gee_service.py 430-434), with
inclusive endpoints. -/
def in_hotspot (lat lng : ℚ) (b : GeoBox) : Bool :=
  decide (b.lat_min ≤ lat) && decide (lat ≤ b.lat_max)
    && decide (b.lng_min ≤ lng) && decide (lng ≤ b.lng_max)

/-- GoogleEarthEngineService._is_potential_mangrove_location
(gee_service.py 333-436): excluded locations - the origin, deep inland
boxes, latitudes beyond 30 degrees - return False up front; otherwise the
point must fall in some hotspot box. -/
def is_potential_mangrove_location (lat lng : ℚ) : Bool :=
  if (lat = 0 ∧ lng = 0) ∨ is_deep_inland lat lng = true ∨ |lat| > 30 then false
  else mangrove_hotspots.any (in_hotspot lat lng)

/-- C7: the location heuristic returns False for every latitude beyond 30
degrees in absolute value, for the origin, and inside every deep-inland
box, and returns True exactly when the point is not so excluded and lies
(endpoints inclusive) in at least one of the listed hotspot boxes. -/
theorem is_potential_mangrove_location_spec (lat lng : ℚ) :
    (|lat| > 30 → is_potential_mangrove_location lat lng = false)
    ∧ is_potential_mangrove_location 0 0 = false
    ∧ (is_deep_inland lat lng = true → is_potential_mangrove_location lat lng = false)
    ∧ (is_potential_mangrove_location lat lng = true ↔
        (¬(lat = 0 ∧ lng = 0) ∧ is_deep_inland lat lng = false ∧ |lat| ≤ 30
          ∧ ∃ b ∈ mangrove_hotspots,
              b.lat_min ≤ lat ∧ lat ≤ b.lat_max ∧ b.lng_min ≤ lng ∧ lng ≤ b.lng_max)) := by
  refine ⟨?_, ?_, ?_, ?_⟩
  · intro h
    unfold is_potential_mangrove_location
    rw [if_pos (Or.inr (Or.inr h))]
  · unfold is_potential_mangrove_location
    rw [if_pos (Or.inl ⟨rfl, rfl⟩)]
  · intro h
    unfold is_potential_mangrove_location
    rw [if_pos (Or.inr (Or.inl h))]
  · constructor
    · intro h
      by_cases hex : (lat = 0 ∧ lng = 0) ∨ is_deep_inland lat lng = true ∨ |lat| > 30
      · unfold is_potential_mangrove_location at h
        rw [if_pos hex] at h
        simp at h
      · unfold is_potential_mangrove_location at h
        rw [if_neg hex] at h
        push_neg at hex
        obtain ⟨h1, h2, h3⟩ := hex
        have h2f : is_deep_inland lat lng = false := by
          cases hde : is_deep_inland lat lng
          · rfl
          · exact absurd hde h2
        rw [List.any_eq_true] at h
        obtain ⟨b, hb, hin⟩ := h
        unfold in_hotspot at hin
        simp only [Bool.and_eq_true, decide_eq_true_eq] at hin
        obtain ⟨⟨⟨ha, hb2⟩, hc⟩, hd⟩ := hin
        exact ⟨fun hc => h1 hc.1 hc.2, h2f, h3, b, hb, ha, hb2, hc, hd⟩
    · rintro ⟨h1, h2, h3, b, hb, ha, hb2, hc, hd⟩
      unfold is_potential_mangrove_location
      have hex : ¬((lat = 0 ∧ lng = 0) ∨ is_deep_inland lat lng = true ∨ |lat| > 30) := by
        push_neg
        exact ⟨fun hl hg => h1 ⟨hl, hg⟩, by simp [h2], h3⟩
      rw [if_neg hex, List.any_eq_true]
      refine ⟨b, hb, ?_⟩
      unfold in_hotspot
      simp only [Bool.and_eq_true, decide_eq_true_eq]
      exact ⟨⟨⟨ha, hb2⟩, hc⟩, hd⟩

/-! ## POST /predict-mangrove-image (main.py 377-404) and the ONNX
classifier result (ml_service.py 273-309)

The handler rejects non-image content types and empty uploads with
HTTP 400, then relays the classifier result.  On the ONNX path the
extracted mangrove probability p (from the two-class output, or the
single output passed through a sigmoid when above 1) determines
is_mangrove as p above 0.5 and confidence as max(p, 1 - p); p is carried
as a parameter since the network itself is opaque. -/

structure ImagePrediction where
  is_mangrove : Bool
  confidence : ℚ
  mangrove_probability : ℚ
  prediction_class : String
  model_type : String
deriving DecidableEq

/-- Result assembly of MLModelService.predict_mangrove_from_image on the
ONNX path (ml_service.py 298-309), from the computed probability. -/
def onnx_image_prediction (mangrove_prob : ℚ) : ImagePrediction :=
  { is_mangrove := decide (mangrove_prob > 1/2)
    confidence := max mangrove_prob (1 - mangrove_prob)
    mangrove_probability := mangrove_prob
    prediction_class := if mangrove_prob > 1/2 then "mangrove" else "not_mangrove"
    model_type := "onnx" }

/-- The POST /predict-mangrove-image handler (main.py 377-404): a missing
or empty content type fails `if not image.content_type` and a non-image/
one fails the startswith check, both giving HTTP 400 "Invalid image file
format"; an empty body gives HTTP 400 "Empty image file"; otherwise the
ONNX classifier result is relayed. -/
def predict_mangrove_image_route (content_type : Option String) (data_len : Nat)
    (mangrove_prob : ℚ) : Except HttpError ImagePrediction :=
  match content_type with
  | none => Except.error ⟨400, "Invalid image file format"⟩
  | some ct =>
      if !(ct.startsWith "image/") then Except.error ⟨400, "Invalid image file format"⟩
      else if data_len = 0 then Except.error ⟨400, "Empty image file"⟩
      else Except.ok (onnx_image_prediction mangrove_prob)

/-- C8: the route answers HTTP 400 whenever the content type is missing,
does not start with image/, or the upload is empty; otherwise it relays
the ONNX classifier result, whose is_mangrove is true exactly when the
mangrove probability exceeds 0.5 and whose confidence is max(p, 1 - p),
hence at least 0.5. -/
theorem predict_mangrove_image_route_spec (ct : Option String) (n : Nat) (p : ℚ) :
    (ct = none →
      predict_mangrove_image_route ct n p = Except.error ⟨400, "Invalid image file format"⟩)
    ∧ (∀ s, ct = some s → s.startsWith "image/" = false →
        predict_mangrove_image_route ct n p = Except.error ⟨400, "Invalid image file format"⟩)
    ∧ (∀ s, ct = some s → s.startsWith "image/" = true → n = 0 →
        predict_mangrove_image_route ct n p = Except.error ⟨400, "Empty image file"⟩)
    ∧ (∀ s, ct = some s → s.startsWith "image/" = true → n ≠ 0 →
        predict_mangrove_image_route ct n p = Except.ok (onnx_image_prediction p))
    ∧ ((onnx_image_prediction p).is_mangrove = true ↔ p > 1/2)
    ∧ (onnx_image_prediction p).confidence = max p (1 - p)
    ∧ 1/2 ≤ (onnx_image_prediction p).confidence := by
  refine ⟨?_, ?_, ?_, ?_, ?_, rfl, ?_⟩
  · intro h
    subst h
    rfl
  · intro s hs hsw
    subst hs
    simp [predict_mangrove_image_route, hsw]
  · intro s hs hsw hn
    subst hs
    simp [predict_mangrove_image_route, hsw, hn]
  · intro s hs hsw hn
    subst hs
    simp [predict_mangrove_image_route, hsw, hn]
  · simp [onnx_image_prediction]
  · show 1/2 ≤ max p (1 - p)
    rcases le_total p (1/2) with h | h
    · exact le_trans (by linarith) (le_max_right p (1 - p))
    · exact le_trans h (le_max_left p (1 - p))

/-! ## POST /analyze-image points update (main.py 217-238,
database/mongodb.py 108-116)

On success the handler analyses the image with Gemini, then calls
auth_service.add_user_points(user, 5), which runs update_one with an
$inc of points and a $set of updated_at on the one document whose _id
matches, and answers with points_earned 5.  The Gemini analysis result
is opaque and passed in. -/

/-- Mongo update_one semantics for Database.update_user_points: the first
document whose _id matches gets points incremented and updated_at set;
every other document and every other field is untouched. -/
def update_user_points : List UserDoc → String → Int → Int → List UserDoc
  | [], _, _, _ => []
  | u :: rest, user_id, points_to_add, now =>
      if u.id = user_id then
        { u with points := u.points + points_to_add, updated_at := now } :: rest
      else
        u :: update_user_points rest user_id points_to_add now

/-- The Gemini analysis fields the /analyze-image response relays
(services/gemini_service.py result dict). -/
structure GeminiAnalysis where
  is_mangrove : Bool
  confidence : ℚ
  description : String
deriving DecidableEq

structure AnalyzeImageResponse where
  prediction : Bool
  confidence : ℚ
  description : String
  points_earned : Int
deriving DecidableEq

/-- The successful path of POST /analyze-image (main.py 224-238): new
user store plus the JSON response. -/
def analyze_image_route (store : List UserDoc) (user_id : String)
    (analysis : GeminiAnalysis) (now : Int) :
    List UserDoc × AnalyzeImageResponse :=
  (update_user_points store user_id 5 now,
   { prediction := analysis.is_mangrove
     confidence := analysis.confidence
     description := analysis.description
     points_earned := 5 })

/-- C9: on a successful analyze-image call for the stored user u (the
first and, emails aside, only document with that _id), exactly that
document changes, by incrementing points by 5 and setting updated_at;
every other document and every other field is unchanged, and the
response reports points_earned 5. -/
theorem analyze_image_adds_five_points (pre post : List UserDoc) (u : UserDoc)
    (analysis : GeminiAnalysis) (now : Int)
    (hpre : ∀ v ∈ pre, v.id ≠ u.id) :
    (analyze_image_route (pre ++ u :: post) u.id analysis now).1
      = pre ++ { u with points := u.points + 5, updated_at := now } :: post
    ∧ (analyze_image_route (pre ++ u :: post) u.id analysis now).2.points_earned = 5 := by
  constructor
  · show update_user_points (pre ++ u :: post) u.id 5 now = _
    induction pre with
    | nil =>
        simp [update_user_points]
    | cons v vs ih =>
        have hv : v.id ≠ u.id := hpre v (List.mem_cons_self v vs)
        have ih2 := ih (fun w hw => hpre w (List.mem_cons_of_mem v hw))
        simp [update_user_points, hv, ih2]
  · rfl

/-- Closed instance of the C9 theorem: a two-user store where the second
user (id u2, 7 points) submits an image at time 99. -/
theorem analyze_image_adds_five_points_witness :
    (analyze_image_route
        [{ id := "u1", name := "Alice", email := "a@x.io", password := "h1",
           role := UserRole.citizen, organization := none, phone := none,
           location := none, points := 3, badges := [], is_verified := false,
           is_admin := false, created_at := 0, updated_at := 0 },
         { id := "u2", name := "Bob", email := "b@x.io", password := "h2",
           role := UserRole.citizen, organization := none, phone := none,
           location := none, points := 7, badges := [], is_verified := false,
           is_admin := false, created_at := 0, updated_at := 0 }]
        "u2" { is_mangrove := true, confidence := 9/10, description := "d" } 99).1
      = [{ id := "u1", name := "Alice", email := "a@x.io", password := "h1",
           role := UserRole.citizen, organization := none, phone := none,
           location := none, points := 3, badges := [], is_verified := false,
           is_admin := false, created_at := 0, updated_at := 0 },
         { id := "u2", name := "Bob", email := "b@x.io", password := "h2",
           role := UserRole.citizen, organization := none, phone := none,
           location := none, points := 12, badges := [], is_verified := false,
           is_admin := false, created_at := 0, updated_at := 99 }]
    ∧ (analyze_image_route
        [{ id := "u1", name := "Alice", email := "a@x.io", password := "h1",
           role := UserRole.citizen, organization := none, phone := none,
           location := none, points := 3, badges := [], is_verified := false,
           is_admin := false, created_at := 0, updated_at := 0 },
         { id := "u2", name := "Bob", email := "b@x.io", password := "h2",
           role := UserRole.citizen, organization := none, phone := none,
           location := none, points := 7, badges := [], is_verified := false,
           is_admin := false, created_at := 0, updated_at := 0 }]
        "u2" { is_mangrove := true, confidence := 9/10, description := "d" } 99).2.points_earned
      = 5 := by
  have h := analyze_image_adds_five_points
    [{ id := "u1", name := "Alice", email := "a@x.io", password := "h1",
       role := UserRole.citizen, organization := none, phone := none,
       location := none, points := 3, badges := [], is_verified := false,
       is_admin := false, created_at := 0, updated_at := 0 }]
    []
    { id := "u2", name := "Bob", email := "b@x.io", password := "h2",
      role := UserRole.citizen, organization := none, phone := none,
      location := none, points := 7, badges := [], is_verified := false,
      is_admin := false, created_at := 0, updated_at := 0 }
    { is_mangrove := true, confidence := 9/10, description := "d" } 99
    (by intro v hv; simp at hv; subst hv; decide)
  simpa using h
